import Mathlib

/-!
Verification development for the dataset metadata store of LightRAG-lly
(`lightrag/kg/dataset_impl.py`, class `JsonDatasetStorage`) and the lazy
storage proxy of `lightrag/api/routers/dataset_routes.py`.

The Python code is shallowly embedded: Python dicts become insertion-ordered
association lists (matching Python 3.7+ dict iteration order), record field
values become the `Val` type (strings and lists of strings, the two value
shapes the store writes), and each `async` method becomes a pure function on
an explicit `Store` state.  A method that can raise returns `Except PyError`.
The model is single-process: the namespace lock serializes every operation,
so an operation is one atomic state transition.
-/

namespace DatasetStore

/-- A JSON-ish value stored in a dataset record: the store only ever writes
strings (name, description, created_at, updated_at) and lists of strings
(docs). -/
inductive Val where
  | str : String → Val
  | lst : List String → Val
deriving DecidableEq, Repr

/-- A dataset record: a Python dict from field name to value, kept in
insertion order like a Python 3.7+ dict. -/
abbrev Record := List (String × Val)

/-- The namespace table `self._data`: a Python dict from dataset id to
record, in insertion order. -/
abbrev Table := List (String × Record)

/-- Python `d.get(k)` / `k in d`: first (and, for tables built by dict
operations, only) binding of `k`. -/
def dget {α : Type} : List (String × α) → String → Option α
  | [], _ => none
  | (k', v) :: rest, k => if k' = k then some v else dget rest k

/-- Python `d[k] = v`: replace the value in place if the key is present
(keeping its position), otherwise append the new binding at the end. -/
def dset {α : Type} : List (String × α) → String → α → List (String × α)
  | [], k, v => [(k, v)]
  | (k', v') :: rest, k, v =>
    if k' = k then (k', v) :: rest else (k', v') :: dset rest k v

/-- Python `d.pop(k, None)`: remove the binding of `k` if present. -/
def dpop {α : Type} : List (String × α) → String → List (String × α)
  | [], _ => []
  | (k', v') :: rest, k => if k' = k then rest else (k', v') :: dpop rest k

/-- Python `d.setdefault(k, v)` (effect on the dict): insert `(k, v)` at the
end when `k` is absent, otherwise leave the dict unchanged. -/
def dsetdefault {α : Type} (d : List (String × α)) (k : String) (v : α) :
    List (String × α) :=
  match dget d k with
  | some _ => d
  | none => d ++ [(k, v)]

/-- Python `d1.update(d2)`: merge `d2` into `d1`, overwriting on conflict. -/
def dupdate {α : Type} (d m : List (String × α)) : List (String × α) :=
  m.foldl (fun acc p => dset acc p.1 p.2) d

/-- Python `str.lower()` restricted to ASCII (the store's field names and the
sort-direction strings are ASCII). -/
def lowerChar (c : Char) : Char :=
  if 65 ≤ c.toNat ∧ c.toNat ≤ 90 then Char.ofNat (c.toNat + 32) else c

/-- ASCII lowercasing of a string, `str.lower()` of the embedding. -/
def lowerStr (s : String) : String := String.mk (s.data.map lowerChar)

/-- Python string comparison: lexicographic by code point. -/
def charListLe : List Char → List Char → Bool
  | [], _ => true
  | _ :: _, [] => false
  | a :: as, b :: bs =>
    if a.toNat < b.toNat then true
    else if b.toNat < a.toNat then false
    else charListLe as bs

/-- `a <= b` on Python strings. -/
def strLe (a b : String) : Bool := charListLe a.data b.data

/-- `a <= b` on Python lists of strings (lexicographic, first difference
decides). -/
def strListLe : List String → List String → Bool
  | [], _ => true
  | _ :: _, [] => false
  | a :: as, b :: bs => if a = b then strListLe as bs else strLe a b

/-- Python `<=` on the two value shapes.  Comparing a string with a list
raises `TypeError` in Python; the mixed cases below are an arbitrary total
choice and no theorem in this file depends on them. -/
def valLe : Val → Val → Bool
  | .str a, .str b => strLe a b
  | .lst a, .lst b => strListLe a b
  | .str _, .lst _ => true
  | .lst _, .str _ => false

/-- `meta.get(k, "")` used where the Python code then treats the value as a
string (`.lower()`): a non-string value would raise in Python and is mapped
to `""` here; no claim stores a non-string in such a field. -/
def getStrDefault (r : Record) (k : String) : String :=
  match dget r k with
  | some (Val.str s) => s
  | _ => ""

/-- The state of one `JsonDatasetStorage` instance together with its backing
file, in a single-process model.
* `inited`: whether `await storage.initialize()` has completed, i.e. whether
  `self._storage_lock` is no longer `None`;
* `data`: the shared namespace table `self._data`;
* `dirty`: this namespace's pending-flush flag (`self.storage_updated.value`,
  set by `set_all_update_flags`, cleared by `clear_all_update_flags`);
* `file`: the content of `kv_store_<namespace>.json` on disk;
* `flushes`: how many times the table was serialized to disk (counts calls
  of `write_json` that actually happen). -/
structure Store where
  inited : Bool
  data : Table
  dirty : Bool
  file : Table
  flushes : Nat
deriving DecidableEq, Repr

/-- The exceptions the store's methods can raise before touching the table.
`storageNotInit` is `StorageNotInitializedError`; `noneCtxError` is the
`AttributeError`/`TypeError` that `async with self._storage_lock` raises when
the lock is still `None` (i.e. before `initialize()` ran). -/
inductive PyError where
  | storageNotInit : PyError
  | noneCtxError : PyError
deriving DecidableEq, Repr

/-- `index_done_callback`: if this process's pending-flush flag is set,
serialize the whole current table to the backing file and clear the flag.
The `needs_reload` branch of the source re-loads the file this process just
wrote when an external conflict is detected; in the single-process model no
external writer exists, so the re-load (of the just-written table) is the
identity and is omitted. -/
def index_done_callback (s : Store) : Store :=
  if s.dirty then
    { s with file := s.data, dirty := false, flushes := s.flushes + 1 }
  else s

/-- `get_by_id`: raw dict lookup under the namespace lock. -/
def get_by_id (s : Store) (id : String) : Except PyError (Option Record × Store) :=
  if s.inited then .ok (dget s.data id, s) else .error .noneCtxError

/-- `get_by_ids`: `[self._data[id] for id in ids if id in self._data]`. -/
def get_by_ids (s : Store) (ids : List String) : Except PyError (List Record × Store) :=
  if s.inited then .ok (ids.filterMap (fun i => dget s.data i), s)
  else .error .noneCtxError

/-- `filter_keys`: the subset of `keys` not present in the table (the Python
set is modelled as a list). -/
def filter_keys (s : Store) (keys : List String) : Except PyError (List String × Store) :=
  if s.inited then .ok (keys.filter (fun k => (dget s.data k).isNone), s)
  else .error .noneCtxError

/-- `upsert`: `self._data.update(data)`, mark dirty, flush. -/
def upsert (s : Store) (m : Table) : Except PyError (Unit × Store) :=
  if s.inited then
    .ok ((), index_done_callback { s with data := dupdate s.data m, dirty := true })
  else .error .noneCtxError

/-- `delete`: pop each id (no error if absent), mark dirty, flush. -/
def delete (s : Store) (ids : List String) : Except PyError (Unit × Store) :=
  if s.inited then
    .ok ((), index_done_callback
      { s with data := ids.foldl (fun acc i => dpop acc i) s.data, dirty := true })
  else .error .noneCtxError

/-- `get_dataset`: `data.copy() if data else None` — an empty dict is falsy
in Python, so an id bound to `{}` reads back as absent. -/
def get_dataset (s : Store) (id : String) : Except PyError (Option Record × Store) :=
  if s.inited then
    .ok ((match dget s.data id with
          | some r => if r.isEmpty then none else some r
          | none => none), s)
  else .error .noneCtxError

/-- The loop body of `get_dataset_by_exact_name`: walk the table in
iteration order and return a copy of the first record whose `name`,
lowercased, equals the lowercased query; the loop falling through returns
`None` (the Python function has no final `return`). -/
def findByName : Table → String → Option Record
  | [], _ => none
  | (_, meta) :: rest, nm =>
    if lowerStr (getStrDefault meta "name") = lowerStr nm then some meta
    else findByName rest nm

/-- `get_dataset_by_exact_name`. -/
def get_dataset_by_exact_name (s : Store) (nm : String) :
    Except PyError (Option Record × Store) :=
  if s.inited then .ok (findByName s.data nm, s) else .error .noneCtxError

/-- Python `needle in hay` on strings, as code-point-list infix. -/
def containsSub (hay needle : List Char) : Bool :=
  needle.isPrefixOf hay ||
    match hay with
    | [] => false
    | _ :: t => containsSub t needle

/-- `search_datasets_by_name`: all records whose `name` contains the keyword
case-insensitively, in table-iteration order. -/
def search_datasets_by_name (s : Store) (kw : String) : Except PyError (Table × Store) :=
  if s.inited then
    .ok (s.data.filter
      (fun p => containsSub (lowerStr (getStrDefault p.2 "name")).data (lowerStr kw).data), s)
  else .error .noneCtxError

/-- The valid sort fields of `get_datasets_paginated`. -/
def fieldNames : List String := ["created_at", "updated_at", "name", "id"]

/-- `if sort_field not in [...]: sort_field = "updated_at"`. -/
def normSortField (f : String) : String :=
  if fieldNames.contains f then f else "updated_at"

/-- `sort_desc = sort_direction.lower() == "desc"`. -/
def descOf (d : String) : Bool := lowerStr d == "desc"

/-- The `_sort_key` the pagination loop stores in each record copy.  `pin`
stands for `get_pinyin_sort_key` from `lightrag.utils`, which is not among
the repository files given; it is kept abstract, and every theorem below
holds for an arbitrary `pin`. -/
def sortKeyOf (pin : Val → Val) (sortField : String) (id : String) (r : Record) : Val :=
  if sortField = "name" then pin ((dget r "name").getD (Val.str ""))
  else if sortField = "id" then Val.str id
  else (dget r sortField).getD (Val.str "")

/-- Stable insertion: `x` goes in front of the first `y` with `le x y`, so
among elements with equivalent keys the one inserted later (which, under
`stableSort`'s `foldr`, stood earlier in the input) stays in front. -/
def insertSorted {α : Type} (le : α → α → Bool) (x : α) : List α → List α
  | [] => [x]
  | y :: ys => if le x y then x :: y :: ys else y :: insertSorted le x ys

/-- Stable sort, modelling Python `list.sort`: for a total preorder `le`,
sortedness plus stability determine the output uniquely, so any stable sort
agrees with Timsort. -/
def stableSort {α : Type} (le : α → α → Bool) (l : List α) : List α :=
  l.foldr (insertSorted le) []

/-- The comparison `list.sort(key=lambda x: x[1]["_sort_key"], reverse=sort_desc)`
uses: compare the stored `_sort_key` values, flipped when descending.
Python's `reverse=True` keeps equal elements in input order, which this `le`
together with `stableSort` reproduces (both orders of `le` hold on a tie). -/
def itemLe (sortDesc : Bool) (a b : String × Record) : Bool :=
  let ka := (dget a.2 "_sort_key").getD (Val.str "")
  let kb := (dget b.2 "_sort_key").getD (Val.str "")
  if sortDesc then valLe kb ka else valLe ka kb

/-- The sorting phase of `get_datasets_paginated`: copy each record, store
its `_sort_key`, stably sort by it, then pop `_sort_key` from each copy. -/
def sortedEntries (pin : Val → Val) (tbl : Table) (sortField : String)
    (sortDesc : Bool) : Table :=
  let items := tbl.map (fun p => (p.1, dset p.2 "_sort_key" (sortKeyOf pin sortField p.1 p.2)))
  let sorted := stableSort (itemLe sortDesc) items
  sorted.map (fun p => (p.1, dpop p.2 "_sort_key"))

/-- The body of `get_datasets_paginated`: clamp `page` to at least 1 and
`page_size` into [10, 200], fall back to `updated_at` on an unrecognized
`sort_field`, compute `sort_desc`, sort, and return
(`items[start : start + page_size]`, `len(items)`). -/
def paginateCore (pin : Val → Val) (tbl : Table) (page pageSize : Int)
    (sortField sortDirection : String) : Table × Nat :=
  let page := if page < 1 then 1 else page
  let pageSize := if pageSize < 10 then 10 else if pageSize > 200 then 200 else pageSize
  let cleaned := sortedEntries pin tbl (normSortField sortField) (descOf sortDirection)
  let total := cleaned.length
  let start := ((page - 1) * pageSize).toNat
  ((cleaned.drop start).take pageSize.toNat, total)

/-- `get_datasets_paginated` as a method (the lock acquisition fails before
producing anything when the store is uninitialized). -/
def get_datasets_paginated (pin : Val → Val) (s : Store) (page pageSize : Int)
    (sortField sortDirection : String) : Except PyError ((Table × Nat) × Store) :=
  if s.inited then .ok (paginateCore pin s.data page pageSize sortField sortDirection, s)
  else .error .noneCtxError

/-- The four `metadata.setdefault(...)` calls of `create_or_update_dataset`,
in source order.  Note `description` is not among them. -/
def defaultsFilled (m : Record) : Record :=
  let m1 := dsetdefault m "docs" (Val.lst [])
  let m2 := dsetdefault m1 "created_at" (Val.str "")
  let m3 := dsetdefault m2 "updated_at" (Val.str "")
  dsetdefault m3 "name" (Val.str "")

/-- `create_or_update_dataset`: the one method that explicitly checks
`self._storage_lock is None` and raises `StorageNotInitializedError`;
fills defaults, stores the record, marks dirty, flushes. -/
def create_or_update_dataset (s : Store) (id : String) (m : Record) :
    Except PyError (Unit × Store) :=
  if ¬ s.inited then .error .storageNotInit
  else
    .ok ((), index_done_callback
      { s with data := dset s.data id (defaultsFilled m), dirty := true })

/-- Python truthiness of `existed = self._data.pop(dataset_id, None)`:
`None` and the empty dict are falsy. -/
def recTruthy : Option Record → Bool
  | none => false
  | some r => !r.isEmpty

/-- `delete_dataset`: pop unconditionally, mark dirty only when the popped
value is truthy, then run the flush step unconditionally. -/
def delete_dataset (s : Store) (id : String) : Except PyError (Unit × Store) :=
  if s.inited then
    let existed := dget s.data id
    let s1 := { s with data := dpop s.data id,
                       dirty := if recTruthy existed then true else s.dirty }
    .ok ((), index_done_callback s1)
  else .error .noneCtxError

/-- `add_doc_to_dataset`: early `return` (no flush) when the dataset is
absent or falsy (`if not dataset`); otherwise `setdefault("docs", [])`,
append the doc only if not already present, mark dirty and flush
unconditionally.  A non-list `docs` value would make Python's `in` /
`.append` misbehave or raise; that case (last match arm) leaves the record
unchanged and no claim exercises it. -/
def add_doc_to_dataset (s : Store) (id doc : String) : Except PyError (Unit × Store) :=
  if s.inited then
    match dget s.data id with
    | none => .ok ((), s)
    | some r =>
      if r.isEmpty then .ok ((), s)
      else
        let r' :=
          match dget r "docs" with
          | some (Val.lst docs) =>
            if doc ∈ docs then r else dset r "docs" (Val.lst (docs ++ [doc]))
          | none => dset r "docs" (Val.lst [doc])
          | some _ => r
        .ok ((), index_done_callback { s with data := dset s.data id r', dirty := true })
  else .error .noneCtxError

/-- `remove_doc_from_dataset`: early `return` (no flush) when the dataset is
absent, falsy, or has no `docs` key; when the doc is present, remove its
first occurrence (`list.remove`) and mark dirty; in every non-early-return
path the flush step still runs.  A non-list `docs` value (last arm) is
treated as not containing `doc`; no claim exercises it. -/
def remove_doc_from_dataset (s : Store) (id doc : String) : Except PyError (Unit × Store) :=
  if s.inited then
    match dget s.data id with
    | none => .ok ((), s)
    | some r =>
      if r.isEmpty then .ok ((), s)
      else
        match dget r "docs" with
        | none => .ok ((), s)
        | some (Val.lst docs) =>
          if doc ∈ docs then
            .ok ((), index_done_callback
              { s with data := dset s.data id (dset r "docs" (Val.lst (docs.erase doc))),
                       dirty := true })
          else .ok ((), index_done_callback s)
        | some _ => .ok ((), index_done_callback s)
  else .error .noneCtxError

/-- `is_empty`. -/
def is_empty (s : Store) : Except PyError (Bool × Store) :=
  if s.inited then .ok (s.data.isEmpty, s) else .error .noneCtxError

/-- `drop`: clear the table, mark dirty, flush, returning a status dict; the
whole body sits in `try/except Exception`, so nothing propagates.  `writeOk`
is modelled from the spec: `write_json` (from `lightrag.utils`, not among
the given files) may fail with an I/O error during the flush (spec §7
`IOFailure`); `writeOk = false` makes that write raise, which `drop`
catches, returning `{"status": "error", "message": str(e)}` with the table
already cleared but not flushed.  Before `initialize()`, entering the `None`
lock raises inside the `try` and is likewise caught. -/
def drop (writeOk : Bool) (s : Store) : Record × Store :=
  if s.inited then
    let s1 := { s with data := [], dirty := true }
    if writeOk then
      ([("status", Val.str "success"), ("message", Val.str "data dropped")],
       index_done_callback s1)
    else
      ([("status", Val.str "error"), ("message", Val.str "disk write failed")], s1)
  else
    ([("status", Val.str "error"), ("message", Val.str "storage lock is None")], s)

/-- `LazyStorageProxy`'s state: its `_initialized` flag and the wrapped
store. -/
structure ProxyState where
  flag : Bool
  store : Store
deriving DecidableEq, Repr

/-- The store's `initialize()`: creates the lock and update flag and, via
`try_initialize_namespace` (modelled from the spec's Coordination Service
contract, `shared_storage` not being among the given files), seeds the
shared table from the backing file on the first call per namespace. -/
def storeInit (s : Store) : Store :=
  { s with inited := true, data := dupdate s.data s.file }

/-- One forwarded call through the proxy: `__getattr__`'s wrapper first
awaits `_init()` — which invokes the store's `initialize()` only when the
`_initialized` flag is still false, then sets it — and then forwards.
Returns the proxy state after the call and how many times `initialize()`
was invoked during it. -/
def proxyStep (p : ProxyState) : ProxyState × Nat :=
  if p.flag then (p, 0)
  else ({ flag := true, store := storeInit p.store }, 1)

/-- A sequence of `n` forwarded calls, with the total number of
`initialize()` invocations. -/
def proxyRun : ProxyState → Nat → ProxyState × Nat
  | p, 0 => (p, 0)
  | p, n + 1 =>
    let r1 := proxyStep p
    let r2 := proxyRun r1.1 n
    (r2.1, r1.2 + r2.2)

/-! ### Dictionary lemmas -/

theorem dget_dset_self {α : Type} (d : List (String × α)) (k : String) (v : α) :
    dget (dset d k v) k = some v := by
  induction d with
  | nil => simp [dset, dget]
  | cons p rest ih =>
    obtain ⟨k', v'⟩ := p
    by_cases h : k' = k <;> simp [dset, dget, h, ih]

theorem dset_self {α : Type} {d : List (String × α)} {k : String} {v : α}
    (h : dget d k = some v) : dset d k v = d := by
  induction d with
  | nil => simp [dget] at h
  | cons p rest ih =>
    obtain ⟨k', v'⟩ := p
    by_cases hk : k' = k
    · simp [dget, hk] at h
      simp [dset, hk, h]
    · simp [dget, hk] at h
      simp [dset, hk, ih h]

theorem dset_not_nil {α : Type} (d : List (String × α)) (k : String) (v : α) :
    (dset d k v).isEmpty = false := by
  cases d with
  | nil => simp [dset]
  | cons p rest =>
    obtain ⟨k', v'⟩ := p
    by_cases h : k' = k <;> simp [dset, h]

theorem dget_eq_none_of_not_mem {α : Type} {d : List (String × α)} {k : String}
    (h : k ∉ d.map Prod.fst) : dget d k = none := by
  induction d with
  | nil => simp [dget]
  | cons p rest ih =>
    obtain ⟨k', v'⟩ := p
    rw [List.map_cons, List.mem_cons] at h
    push_neg at h
    simp only [dget]
    rw [if_neg (fun hh => h.1 hh.symm), ih h.2]

theorem dget_dpop_self {α : Type} {d : List (String × α)} {k : String}
    (h : (d.map Prod.fst).Nodup) : dget (dpop d k) k = none := by
  induction d with
  | nil => simp [dpop, dget]
  | cons p rest ih =>
    obtain ⟨k', v'⟩ := p
    rw [List.map_cons, List.nodup_cons] at h
    by_cases hk : k' = k
    · subst hk
      simp only [dpop, if_pos rfl]
      exact dget_eq_none_of_not_mem h.1
    · simp only [dpop, if_neg hk, dget, ih h.2]

/-! ### Sorting and slicing lemmas -/

theorem length_insertSorted {α : Type} (le : α → α → Bool) (x : α) (l : List α) :
    (insertSorted le x l).length = l.length + 1 := by
  induction l with
  | nil => simp [insertSorted]
  | cons y ys ih =>
    by_cases h : le x y <;> simp [insertSorted, h, ih]

theorem length_stableSort {α : Type} (le : α → α → Bool) (l : List α) :
    (stableSort le l).length = l.length := by
  induction l with
  | nil => simp [stableSort]
  | cons y ys ih =>
    simp only [stableSort, List.foldr_cons] at *
    rw [length_insertSorted, ih]
    rfl

theorem length_sortedEntries (pin : Val → Val) (tbl : Table) (f : String) (b : Bool) :
    (sortedEntries pin tbl f b).length = tbl.length := by
  simp [sortedEntries, length_stableSort]

theorem join_chunks {α : Type} (P : Nat) :
    ∀ (n : Nat) (l : List α), l.length ≤ n * P →
      ((List.range n).map (fun j => (l.drop (j * P)).take P)).flatten = l := by
  intro n
  induction n with
  | zero =>
    intro l hl
    simp at hl
    simp [hl]
  | succ n ih =>
    intro l hl
    rw [Nat.succ_mul] at hl
    rw [List.range_succ_eq_map]
    simp only [List.map_cons, List.map_map, List.flatten_cons, Nat.zero_mul,
      List.drop_zero]
    have hrw : ∀ j : Nat, (l.drop (Nat.succ j * P)).take P =
        ((l.drop P).drop (j * P)).take P := by
      intro j
      have hidx : Nat.succ j * P = j * P + P := Nat.succ_mul j P
      have hdd : (l.drop P).drop (j * P) = l.drop (j * P + P) := by
        rw [List.drop_drop]
        congr 1
        omega
      rw [hidx, hdd]
    have hfun : ((fun j => (l.drop (j * P)).take P) ∘ Nat.succ) =
        (fun j => ((l.drop P).drop (j * P)).take P) := by
      funext j
      simp only [Function.comp_apply]
      exact hrw j
    rw [hfun, ih (l.drop P) (by
      have h2 : (List.drop P l).length = l.length - P := by simp
      omega)]
    exact List.take_append_drop P l

/-! ### Argument normalization of `get_datasets_paginated` (claim C1) -/

theorem clampPage_eq (page : Int) :
    (if max page 1 < 1 then (1 : Int) else max page 1) =
      (if page < 1 then 1 else page) := by
  split_ifs <;> omega

theorem clampSize_eq (ps : Int) :
    (if min (max ps 10) 200 < 10 then (10 : Int)
     else if min (max ps 10) 200 > 200 then 200 else min (max ps 10) 200) =
      (if ps < 10 then 10 else if ps > 200 then 200 else ps) := by
  split_ifs <;> omega

theorem normSortField_idem (f : String) :
    normSortField (normSortField f) = normSortField f := by
  by_cases h : fieldNames.contains f
  · simp only [normSortField, if_pos h]
  · have h2 : fieldNames.contains "updated_at" = true := by decide
    simp only [normSortField, if_neg h, if_pos h2]

theorem descOf_norm (d : String) :
    descOf (if descOf d then "desc" else "asc") = descOf d := by
  cases h : descOf d
  · simp only [h, if_false, Bool.false_eq_true]
    decide
  · simp only [h, if_true]
    decide

/-- **C1** (corrected).  Amended claim: a `page` below 1 is clamped to 1, a
`page_size` outside [10, 200] is clamped to the nearest bound, and an
unrecognized `sort_field` falls back to `updated_at` — exactly as the claim
says — but the sort direction defaults the other way round: only a
`sort_direction` whose lowercasing is `"desc"` sorts descending, and every
other value (including unrecognized ones) behaves as `"asc"`.  The theorem
states that every call equals the call with the normalized arguments. -/
theorem paginated_arg_normalization (pin : Val → Val) (s : Store)
    (page pageSize : Int) (f d : String) :
    get_datasets_paginated pin s page pageSize f d =
      get_datasets_paginated pin s (max page 1) (min (max pageSize 10) 200)
        (normSortField f) (if descOf d then "desc" else "asc") := by
  cases hs : s.inited
  · simp [get_datasets_paginated, hs]
  · simp only [get_datasets_paginated, hs, if_true, paginateCore]
    rw [clampPage_eq, clampSize_eq, normSortField_idem, descOf_norm]

/-- The store of the C1 counterexample: two records with distinct
`updated_at` values. -/
def c1Store : Store :=
  { inited := true,
    data := [("a", [("updated_at", Val.str "1")]), ("b", [("updated_at", Val.str "2")])],
    dirty := false, file := [], flushes := 0 }

/-- **C1 counterexample.**  The claim says any `sort_direction` other than
`"asc"` behaves as `"desc"` (descending).  With `sort_direction =
"unrecognized"` the code returns the records in ascending `updated_at`
order — the same as `"asc"` and different from what `"desc"` returns — so
the claim as stated is false at this input. -/
theorem paginated_direction_cx :
    get_datasets_paginated (fun v => v) c1Store 1 10 "updated_at" "unrecognized" =
      .ok (([("a", [("updated_at", Val.str "1")]), ("b", [("updated_at", Val.str "2")])], 2),
        c1Store) ∧
    get_datasets_paginated (fun v => v) c1Store 1 10 "updated_at" "desc" =
      .ok (([("b", [("updated_at", Val.str "2")]), ("a", [("updated_at", Val.str "1")])], 2),
        c1Store) ∧
    ([("a", [("updated_at", Val.str "1")]), ("b", [("updated_at", Val.str "2")])] : Table) ≠
      [("b", [("updated_at", Val.str "2")]), ("a", [("updated_at", Val.str "1")])] := by
  refine ⟨by rfl, by rfl, by decide⟩

/-! ### Pagination covers the sorted sequence (claim C2) -/

theorem paginateCore_slice (pin : Val → Val) (tbl : Table) (i P : Nat) (f d : String)
    (hi : 1 ≤ i) (hP1 : 10 ≤ P) (hP2 : P ≤ 200) :
    paginateCore pin tbl (i : Int) (P : Int) f d =
      (((sortedEntries pin tbl (normSortField f) (descOf d)).drop ((i - 1) * P)).take P,
        tbl.length) := by
  have h1 : ¬((i : Int) < 1) := by omega
  have h2 : ¬((P : Int) < 10) := by omega
  have h3 : ¬((P : Int) > 200) := by omega
  simp only [paginateCore, if_neg h1, if_neg h2, if_neg h3]
  have h4 : (((i : Int) - 1) * (P : Int)).toNat = (i - 1) * P := by
    have hcast : ((i : Int) - 1) = ((i - 1 : Nat) : Int) := by omega
    rw [hcast, ← Nat.cast_mul]
    omega
  have h5 : ((P : Int)).toNat = P := by omega
  rw [h4, h5, length_sortedEntries]

/-- The item list of one page of `get_datasets_paginated` (empty when the
call raises). -/
def pageItems (pin : Val → Val) (s : Store) (P : Nat) (f d : String) (i : Nat) : Table :=
  match get_datasets_paginated pin s (i : Int) (P : Int) f d with
  | .ok (r, _) => r.1
  | .error _ => []

/-- **C2** (confirmed).  On an initialized store, for a valid page size
`P ∈ [10, 200]` and fixed `sort_field`/`sort_direction`: every call with
page `i ≥ 1` returns the slice `[(i-1)*P : i*P]` of the full stably-sorted
sequence together with `total_count` equal to the pre-pagination length of
the table, and concatenating the result sequences of pages `1 .. ⌈N/P⌉`
(where `N` is the total count) reproduces the full sorted sequence exactly
once, in order. -/
theorem paginated_pages_cover (pin : Val → Val) (s : Store) (P : Nat) (f d : String)
    (hs : s.inited = true) (hP1 : 10 ≤ P) (hP2 : P ≤ 200) :
    (∀ i : Nat, 1 ≤ i →
      get_datasets_paginated pin s (i : Int) (P : Int) f d =
        .ok ((((sortedEntries pin s.data (normSortField f) (descOf d)).drop
            ((i - 1) * P)).take P, s.data.length), s)) ∧
    ((List.range ((s.data.length + P - 1) / P)).map
        (fun j => pageItems pin s P f d (j + 1))).flatten =
      sortedEntries pin s.data (normSortField f) (descOf d) := by
  have hslice : ∀ i : Nat, 1 ≤ i →
      get_datasets_paginated pin s (i : Int) (P : Int) f d =
        .ok ((((sortedEntries pin s.data (normSortField f) (descOf d)).drop
            ((i - 1) * P)).take P, s.data.length), s) := by
    intro i hi
    simp only [get_datasets_paginated, hs, if_true]
    rw [paginateCore_slice pin s.data i P f d hi hP1 hP2]
  refine ⟨hslice, ?_⟩
  have hpage : (fun j => pageItems pin s P f d (j + 1)) =
      (fun j => ((sortedEntries pin s.data (normSortField f) (descOf d)).drop
        (j * P)).take P) := by
    funext j
    unfold pageItems
    rw [hslice (j + 1) (by omega)]
    simp
  rw [hpage]
  apply join_chunks
  rw [length_sortedEntries]
  have hdm := Nat.div_add_mod (s.data.length + P - 1) P
  have hm : (s.data.length + P - 1) % P < P := Nat.mod_lt _ (by omega)
  rw [Nat.mul_comm]
  omega

/-- Concrete scenario for the C2 witness: three records, sorted by name
ascending with page size 10. -/
def c2Store : Store :=
  { inited := true,
    data := [("A", [("name", Val.str "acme")]), ("B", [("name", Val.str "beta")]),
             ("C", [("name", Val.str "crew")])],
    dirty := false, file := [], flushes := 0 }

/-- Witness for C2: concatenating all pages of the concrete store
reproduces the full sorted sequence. -/
theorem paginated_pages_cover_witness :
    ((List.range ((c2Store.data.length + 10 - 1) / 10)).map
        (fun j => pageItems (fun v => v) c2Store 10 "name" "asc" (j + 1))).flatten =
      sortedEntries (fun v => v) c2Store.data (normSortField "name") (descOf "asc") :=
  (paginated_pages_cover (fun v => v) c2Store 10 "name" "asc" rfl (by decide)
    (by decide)).2

/-! ### Create/get round trip (claim C3) -/

/-- **C3** (corrected, amended part).  After
`create_or_update_dataset("x", {"name": "n"})` succeeds, `get_dataset("x")`
returns the stored record with `docs`, `created_at` and `updated_at` filled
with their defaults — but with no `description` field: the source's
`setdefault` chain covers only `docs`, `created_at`, `updated_at` and
`name`. -/
theorem create_roundtrip_amended (s s' : Store)
    (h : create_or_update_dataset s "x" [("name", Val.str "n")] = .ok ((), s')) :
    get_dataset s' "x" =
      .ok (some [("name", Val.str "n"), ("docs", Val.lst []),
        ("created_at", Val.str ""), ("updated_at", Val.str "")], s') := by
  cases hi : s.inited
  · exfalso
    simp [create_or_update_dataset, hi] at h
  · have hm : defaultsFilled [("name", Val.str "n")] =
        [("name", Val.str "n"), ("docs", Val.lst []),
         ("created_at", Val.str ""), ("updated_at", Val.str "")] := by rfl
    simp only [create_or_update_dataset, hi, not_true] at h
    rw [if_neg (by simp)] at h
    simp only [Except.ok.injEq, Prod.mk.injEq, true_and] at h
    subst h
    simp only [get_dataset, index_done_callback, if_pos rfl]
    simp only [hi, if_true]
    rw [hm, dget_dset_self]
    rfl

/-- An initialized, empty store for the C3 scenario. -/
def c3Store : Store :=
  { inited := true, data := [], dirty := false, file := [], flushes := 0 }

/-- The store after `create_or_update_dataset("x", {"name": "n"})` on
`c3Store`. -/
def c3After : Store :=
  match create_or_update_dataset c3Store "x" [("name", Val.str "n")] with
  | .ok (_, s) => s
  | .error _ => c3Store

/-- **C3 counterexample.**  The claim says the returned record is
`{"name": "n", "description": "", "created_at": "", "updated_at": "",
"docs": []}` — i.e. that the absent `description` is also filled with its
default.  In fact the record `get_dataset("x")` returns after the create has
no `description` key at all (its `description` lookup is `none`, where the
claimed record's is `some ""`), so the claimed dict equality fails. -/
theorem create_roundtrip_cx :
    create_or_update_dataset c3Store "x" [("name", Val.str "n")] = .ok ((), c3After) ∧
    get_dataset c3After "x" =
      .ok (some [("name", Val.str "n"), ("docs", Val.lst []),
        ("created_at", Val.str ""), ("updated_at", Val.str "")], c3After) ∧
    dget [("name", Val.str "n"), ("docs", Val.lst []),
        ("created_at", Val.str ""), ("updated_at", Val.str "")] "description" = none := by
  exact ⟨rfl, rfl, rfl⟩

/-- Witness for the amended C3 theorem at the concrete scenario store. -/
theorem create_roundtrip_amended_witness :
    get_dataset c3After "x" =
      .ok (some [("name", Val.str "n"), ("docs", Val.lst []),
        ("created_at", Val.str ""), ("updated_at", Val.str "")], c3After) :=
  create_roundtrip_amended c3Store c3After (by rfl)

/-! ### Uninitialized-store behaviour (claim C4) -/

/-- A store on which `JsonDatasetStorage.__post_init__` ran but
`initialize()` did not: `self._storage_lock` is still `None`. -/
def uninitStore : Store :=
  { inited := false, data := [], dirty := false, file := [], flushes := 0 }

/-- **C4** (code bug evidence).  The claim — and spec §7 — require every
domain operation called before `initialize()` to raise
`StorageNotInitialized` uniformly.  The code checks the lock only in
`create_or_update_dataset`; every other operation hits
`async with self._storage_lock` with the lock still `None` and raises the
generic `AttributeError`/`TypeError` instead (`noneCtxError` here), which is
a different exception. -/
theorem uninit_error_not_uniform :
    create_or_update_dataset uninitStore "x" [] = .error .storageNotInit ∧
    get_by_id uninitStore "x" = .error .noneCtxError ∧
    get_by_ids uninitStore ["x"] = .error .noneCtxError ∧
    filter_keys uninitStore ["x"] = .error .noneCtxError ∧
    upsert uninitStore [] = .error .noneCtxError ∧
    delete uninitStore ["x"] = .error .noneCtxError ∧
    get_dataset uninitStore "x" = .error .noneCtxError ∧
    get_dataset_by_exact_name uninitStore "n" = .error .noneCtxError ∧
    search_datasets_by_name uninitStore "n" = .error .noneCtxError ∧
    get_datasets_paginated (fun v => v) uninitStore 1 50 "updated_at" "desc" =
      .error .noneCtxError ∧
    delete_dataset uninitStore "x" = .error .noneCtxError ∧
    add_doc_to_dataset uninitStore "x" "d" = .error .noneCtxError ∧
    remove_doc_from_dataset uninitStore "x" "d" = .error .noneCtxError ∧
    is_empty uninitStore = .error .noneCtxError ∧
    PyError.noneCtxError ≠ PyError.storageNotInit := by
  refine ⟨rfl, rfl, rfl, rfl, rfl, rfl, rfl, rfl, rfl, rfl, rfl, rfl, rfl, rfl, by decide⟩

/-! ### Idempotent doc addition (claim C5) -/

/-- **C5** (confirmed).  Starting from an existing (truthy) dataset whose
`docs` does not contain `doc`, calling `add_doc_to_dataset` twice leaves
`docs = docs₀ ++ [doc]`: the doc appears exactly once, appended at the end
(insertion order preserved), and the second call does not change the table
again. -/
theorem add_doc_idempotent (s s1 s2 : Store) (id doc : String) (r : Record)
    (docs : List String)
    (hr : dget s.data id = some r) (hne : r.isEmpty = false)
    (hd : dget r "docs" = some (Val.lst docs)) (hdoc : doc ∉ docs)
    (h1 : add_doc_to_dataset s id doc = .ok ((), s1))
    (h2 : add_doc_to_dataset s1 id doc = .ok ((), s2)) :
    ((dget s2.data id).bind (fun r' => dget r' "docs")) = some (Val.lst (docs ++ [doc])) ∧
    (docs ++ [doc]).count doc = 1 ∧
    s2.data = s1.data := by
  cases hi : s.inited
  · exfalso
    simp [add_doc_to_dataset, hi] at h1
  · have e1 : add_doc_to_dataset s id doc =
        .ok ((), index_done_callback
          { s with data := dset s.data id (dset r "docs" (Val.lst (docs ++ [doc]))),
                   dirty := true }) := by
      simp [add_doc_to_dataset, hi, hr, hne, hd, if_neg hdoc]
    rw [e1] at h1
    simp only [Except.ok.injEq, Prod.mk.injEq, true_and] at h1
    have hs1data : s1.data = dset s.data id (dset r "docs" (Val.lst (docs ++ [doc]))) := by
      rw [← h1]
      rfl
    have hs1init : s1.inited = true := by
      rw [← h1]
      exact hi
    have hg : dget s1.data id = some (dset r "docs" (Val.lst (docs ++ [doc]))) := by
      rw [hs1data]
      exact dget_dset_self _ _ _
    have hne1 : (dset r "docs" (Val.lst (docs ++ [doc]))).isEmpty = false :=
      dset_not_nil _ _ _
    have hd1 : dget (dset r "docs" (Val.lst (docs ++ [doc]))) "docs" =
        some (Val.lst (docs ++ [doc])) := dget_dset_self _ _ _
    have hmem : doc ∈ docs ++ [doc] := by simp
    have e2 : add_doc_to_dataset s1 id doc =
        .ok ((), index_done_callback
          { s1 with data := dset s1.data id (dset r "docs" (Val.lst (docs ++ [doc]))),
                    dirty := true }) := by
      simp [add_doc_to_dataset, hs1init, hg, hne1, hd1, if_pos hmem]
    rw [e2] at h2
    simp only [Except.ok.injEq, Prod.mk.injEq, true_and] at h2
    have hset : dset s1.data id (dset r "docs" (Val.lst (docs ++ [doc]))) = s1.data :=
      dset_self hg
    have hs2data : s2.data = s1.data := by
      rw [← h2]
      show dset s1.data id (dset r "docs" (Val.lst (docs ++ [doc]))) = s1.data
      exact hset
    refine ⟨?_, ?_, hs2data⟩
    · rw [hs2data, hg]
      show dget (dset r "docs" (Val.lst (docs ++ [doc]))) "docs" =
        some (Val.lst (docs ++ [doc]))
      exact hd1
    · rw [List.count_append, List.count_eq_zero.mpr hdoc]
      simp

/-- Concrete scenario for C5: one dataset `"ds"` with empty `docs`. -/
def c5Store : Store :=
  { inited := true,
    data := [("ds", [("name", Val.str "d"), ("docs", Val.lst [])])],
    dirty := false, file := [], flushes := 0 }

/-- The store after the first `add_doc_to_dataset("ds", "d1")`. -/
def c5After1 : Store :=
  match add_doc_to_dataset c5Store "ds" "d1" with
  | .ok (_, s) => s
  | .error _ => c5Store

/-- The store after the second `add_doc_to_dataset("ds", "d1")`. -/
def c5After2 : Store :=
  match add_doc_to_dataset c5After1 "ds" "d1" with
  | .ok (_, s) => s
  | .error _ => c5After1

/-- Witness for C5: adding `"d1"` twice to a dataset with empty `docs`
leaves `docs == ["d1"]`. -/
theorem add_doc_idempotent_witness :
    ((dget c5After2.data "ds").bind (fun r' => dget r' "docs")) =
      some (Val.lst ["d1"]) ∧
    (["d1"] : List String).count "d1" = 1 ∧
    c5After2.data = c5After1.data :=
  add_doc_idempotent c5Store c5After1 c5After2 "ds" "d1"
    [("name", Val.str "d"), ("docs", Val.lst [])] []
    rfl rfl rfl (by decide) rfl rfl

/-! ### Removing a missing doc is a no-op (claim C6) -/

/-- **C6** (confirmed).  If the dataset exists (truthy, with a `docs` list)
but `doc` is not in `docs`, and the pending-flush flag is clear — the steady
state between operations, since in this single-process model every mutation
flushes and clears the flag before returning — then
`remove_doc_from_dataset` returns the state entirely unchanged: same table,
flag still clear, no flush performed (`flushes` unchanged). -/
theorem remove_doc_missing_noop (s : Store) (id doc : String) (r : Record)
    (docs : List String)
    (hi : s.inited = true) (hclean : s.dirty = false)
    (hr : dget s.data id = some r) (hne : r.isEmpty = false)
    (hd : dget r "docs" = some (Val.lst docs)) (hdoc : doc ∉ docs) :
    remove_doc_from_dataset s id doc = .ok ((), s) := by
  simp [remove_doc_from_dataset, hi, hr, hne, hd, if_neg hdoc,
    index_done_callback, hclean]

/-- Concrete scenario for C6. -/
def c6Store : Store :=
  { inited := true,
    data := [("ds", [("name", Val.str "d"), ("docs", Val.lst ["d1"])])],
    dirty := false,
    file := [("ds", [("name", Val.str "d"), ("docs", Val.lst ["d1"])])],
    flushes := 0 }

/-- Witness for C6: removing a doc that is not in `docs` changes nothing. -/
theorem remove_doc_missing_noop_witness :
    remove_doc_from_dataset c6Store "ds" "missing" = .ok ((), c6Store) :=
  remove_doc_missing_noop c6Store "ds" "missing"
    [("name", Val.str "d"), ("docs", Val.lst ["d1"])] ["d1"]
    rfl rfl rfl rfl rfl (by decide)

/-! ### Case-insensitive exact-name lookup (claim C7) -/

theorem findByName_some_matches : ∀ (tbl : Table) (nm : String) (r : Record),
    findByName tbl nm = some r →
    lowerStr (getStrDefault r "name") = lowerStr nm := by
  intro tbl
  induction tbl with
  | nil => intro nm r h; simp [findByName] at h
  | cons p rest ih =>
    intro nm r h
    obtain ⟨i, m⟩ := p
    by_cases hm : lowerStr (getStrDefault m "name") = lowerStr nm
    · simp only [findByName, if_pos hm, Option.some.injEq] at h
      rw [← h]
      exact hm
    · simp only [findByName, if_neg hm] at h
      exact ih nm r h

theorem findByName_none (tbl : Table) (nm : String)
    (h : ∀ p ∈ tbl, lowerStr (getStrDefault p.2 "name") ≠ lowerStr nm) :
    findByName tbl nm = none := by
  induction tbl with
  | nil => simp [findByName]
  | cons p rest ih =>
    obtain ⟨i, m⟩ := p
    simp only [findByName, if_neg (h (i, m) (List.mem_cons_self _ _))]
    exact ih (fun q hq => h q (List.mem_cons_of_mem _ hq))

theorem findByName_first : ∀ (pre : Table) (tbl : Table) (nm : String)
    (idr : String × Record) (post : Table),
    tbl = pre ++ idr :: post →
    (∀ p ∈ pre, lowerStr (getStrDefault p.2 "name") ≠ lowerStr nm) →
    lowerStr (getStrDefault idr.2 "name") = lowerStr nm →
    findByName tbl nm = some idr.2 := by
  intro pre
  induction pre with
  | nil =>
    intro tbl nm idr post htbl _ hmatch
    subst htbl
    obtain ⟨i, m⟩ := idr
    simp only [List.nil_append, findByName, if_pos hmatch]
  | cons q pre' ih =>
    intro tbl nm idr post htbl hpre hmatch
    subst htbl
    obtain ⟨i, m⟩ := q
    have hq : lowerStr (getStrDefault m "name") ≠ lowerStr nm :=
      hpre (i, m) (List.mem_cons_self _ _)
    simp only [List.cons_append, findByName, if_neg hq]
    exact ih _ nm idr post rfl (fun p hp => hpre p (List.mem_cons_of_mem _ hp)) hmatch

/-- **C7** (confirmed).  `get_dataset_by_exact_name` compares names by
case-insensitive full-string equality: a returned record's name matches the
query up to case; when no record matches it returns absent (the Python loop
falls through and implicitly returns `None`); and with duplicates the first
match in table-iteration order wins. -/
theorem exact_name_ci_first_match (s : Store) (nm : String) (hi : s.inited = true) :
    (∀ r, findByName s.data nm = some r →
      lowerStr (getStrDefault r "name") = lowerStr nm) ∧
    ((∀ p ∈ s.data, lowerStr (getStrDefault p.2 "name") ≠ lowerStr nm) →
      findByName s.data nm = none) ∧
    (∀ (pre : Table) (idr : String × Record) (post : Table),
      s.data = pre ++ idr :: post →
      (∀ p ∈ pre, lowerStr (getStrDefault p.2 "name") ≠ lowerStr nm) →
      lowerStr (getStrDefault idr.2 "name") = lowerStr nm →
      findByName s.data nm = some idr.2) ∧
    get_dataset_by_exact_name s nm = .ok (findByName s.data nm, s) := by
  refine ⟨fun r h => findByName_some_matches s.data nm r h,
    fun h => findByName_none s.data nm h,
    fun pre idr post h1 h2 h3 => findByName_first pre s.data nm idr post h1 h2 h3,
    ?_⟩
  simp [get_dataset_by_exact_name, hi]

/-- Concrete scenario for C7: a record stored under the lowercase name
`"acme"`, queried as `"Acme"`. -/
def c7Store : Store :=
  { inited := true,
    data := [("1", [("name", Val.str "acme")])],
    dirty := false, file := [], flushes := 0 }

/-- Witness for C7: querying `"Acme"` matches the record named `"acme"`
(the theorem's first conjunct applied to the concrete lookup result), and
the method returns that record. -/
theorem exact_name_ci_first_match_witness :
    lowerStr (getStrDefault [("name", Val.str "acme")] "name") = lowerStr "Acme" ∧
    get_dataset_by_exact_name c7Store "Acme" =
      .ok (findByName c7Store.data "Acme", c7Store) :=
  ⟨(exact_name_ci_first_match c7Store "Acme" rfl).1 [("name", Val.str "acme")] rfl,
   (exact_name_ci_first_match c7Store "Acme" rfl).2.2.2⟩

/-! ### `drop` never raises (claim C8) -/

/-- **C8** (confirmed).  `drop` is a total function into a status dict (its
type carries no exception: the Python body is wrapped whole in
`try/except Exception`).  On success it leaves the namespace table empty,
flushes, and returns `{"status": "success", ...}`; when the disk write
fails during the flush (`writeOk = false`, the `write_json` failure modelled
from spec §7), it returns `{"status": "error", "message": ...}` instead of
propagating. -/
theorem drop_never_raises (s : Store) (hi : s.inited = true) :
    ((drop true s).1 =
        [("status", Val.str "success"), ("message", Val.str "data dropped")] ∧
      (drop true s).2.data = [] ∧
      (drop true s).2.file = [] ∧
      (drop true s).2.dirty = false) ∧
    (dget (drop false s).1 "status" = some (Val.str "error") ∧
      (dget (drop false s).1 "message").isSome = true ∧
      (drop false s).2.data = []) := by
  simp [drop, hi, index_done_callback, dget]

/-- Concrete scenario for C8: a namespace with one record. -/
def c8Store : Store :=
  { inited := true,
    data := [("a", [("name", Val.str "x")])],
    dirty := false,
    file := [("a", [("name", Val.str "x")])],
    flushes := 0 }

/-- Witness for C8 at the concrete store: successful drop empties the table
and reports success; a simulated disk failure reports a structured error. -/
theorem drop_never_raises_witness :
    (drop true c8Store).1 =
      [("status", Val.str "success"), ("message", Val.str "data dropped")] ∧
    (drop true c8Store).2.data = [] ∧
    dget (drop false c8Store).1 "status" = some (Val.str "error") :=
  ⟨(drop_never_raises c8Store rfl).1.1,
   (drop_never_raises c8Store rfl).1.2.1,
   (drop_never_raises c8Store rfl).2.1⟩

/-! ### Lazy proxy initializes exactly once (claim C9) -/

theorem proxyRun_flagged (q : ProxyState) (hq : q.flag = true) :
    ∀ m : Nat, proxyRun q m = (q, 0) := by
  intro m
  induction m with
  | zero => rfl
  | succ m ih =>
    simp only [proxyRun, proxyStep, hq, if_true, ih]

/-- **C9** (confirmed).  Through one proxy whose `_initialized` flag is
still false, any sequence of `n ≥ 1` forwarded calls invokes the wrapped
store's `initialize()` exactly once in total; the invocation happens during
the first call (which completes with the store initialized), and every
subsequent call performs zero invocations. -/
theorem proxy_inits_once (p : ProxyState) (n : Nat)
    (hflag : p.flag = false) (hn : 1 ≤ n) :
    (proxyRun p n).2 = 1 ∧
    (proxyStep p).2 = 1 ∧
    (proxyStep p).1.store.inited = true ∧
    (∀ m : Nat, (proxyRun (proxyStep p).1 m).2 = 0) := by
  have hstep : proxyStep p = ({ flag := true, store := storeInit p.store }, 1) := by
    simp [proxyStep, hflag]
  have hrest : ∀ m : Nat, proxyRun (proxyStep p).1 m = ((proxyStep p).1, 0) := by
    intro m
    apply proxyRun_flagged
    rw [hstep]
  refine ⟨?_, by rw [hstep], by rw [hstep]; rfl, fun m => by rw [hrest m]⟩
  obtain ⟨k, rfl⟩ : ∃ k, n = k + 1 := ⟨n - 1, by omega⟩
  simp only [proxyRun]
  rw [hrest k, hstep]
  rfl

/-- Concrete proxy for C9, wrapping an uninitialized store with a non-empty
backing file. -/
def c9Proxy : ProxyState :=
  { flag := false,
    store := { inited := false, data := [], dirty := false,
               file := [("a", [("name", Val.str "x")])], flushes := 0 } }

/-- Witness for C9: three forwarded calls initialize exactly once, during
the first call. -/
theorem proxy_inits_once_witness :
    (proxyRun c9Proxy 3).2 = 1 ∧ (proxyStep c9Proxy).2 = 1 :=
  ⟨(proxy_inits_once c9Proxy 3 rfl (by decide)).1,
   (proxy_inits_once c9Proxy 3 rfl (by decide)).2.1⟩

/-! ### An empty record behaves as absent (claim C10) -/

/-- **C10** (confirmed).  A table entry bound to the empty dict `{}` is
falsy in Python, so the domain operations treat the id as absent:
`get_dataset` returns `None`, `add_doc_to_dataset` is a no-op, and
`delete_dataset` removes the entry without marking the namespace dirty
(and, the flag being clear, without flushing) — even though `get_by_id`
returns the (empty) record and `filter_keys` does not report the id as
missing. -/
theorem empty_record_as_absent (s : Store) (id doc : String)
    (hi : s.inited = true) (hclean : s.dirty = false)
    (hr : dget s.data id = some ([] : Record))
    (hnd : (s.data.map Prod.fst).Nodup) :
    get_dataset s id = .ok (none, s) ∧
    add_doc_to_dataset s id doc = .ok ((), s) ∧
    delete_dataset s id = .ok ((), { s with data := dpop s.data id }) ∧
    dget (dpop s.data id) id = none ∧
    get_by_id s id = .ok (some [], s) ∧
    filter_keys s [id] = .ok ([], s) := by
  refine ⟨?_, ?_, ?_, dget_dpop_self hnd, ?_, ?_⟩
  · simp [get_dataset, hi, hr]
  · simp [add_doc_to_dataset, hi, hr]
  · simp [delete_dataset, hi, hr, recTruthy, index_done_callback, hclean]
  · simp [get_by_id, hi, hr]
  · simp [filter_keys, hi, hr]

/-- Concrete scenario for C10: one id bound to the empty record. -/
def c10Store : Store :=
  { inited := true, data := [("e", [])], dirty := false, file := [], flushes := 0 }

/-- Witness for C10 at the concrete store. -/
theorem empty_record_as_absent_witness :
    get_dataset c10Store "e" = .ok (none, c10Store) ∧
    add_doc_to_dataset c10Store "e" "d" = .ok ((), c10Store) ∧
    delete_dataset c10Store "e" = .ok ((), { c10Store with data := [] }) :=
  ⟨(empty_record_as_absent c10Store "e" "d" rfl rfl rfl (by decide)).1,
   (empty_record_as_absent c10Store "e" "d" rfl rfl rfl (by decide)).2.1,
   (empty_record_as_absent c10Store "e" "d" rfl rfl rfl (by decide)).2.2.1⟩

end DatasetStore
